import Mathlib

/-!
Verification of the per-user context buffer and message-handling logic of
`telegram_gpt_bot.py` (a Telegram ↔ OpenAI relay bot).

The embedding models:
* the per-user conversation store `user_context : Dict[int, deque(maxlen=24)]`
  with `ensure_context`, `push_user`, `push_assistant`;
* Python's `deque(maxlen=cap).append` as `dequeAppend`;
* the handlers `handle_text`, `handle_document`, `handle_photo` as pure
  state-transformers whose external effects (replies sent, payload dispatched
  to the inference service, files written) are made explicit in the result;
* `generate_pdf_report` with its plain-text fallback branch;
* the startup credential check.

External collaborators (Telegram transport, OpenAI, the filesystem) are
parameters: the inference call is a function from the outbound payload to
`Except Unit String`, and the report renderer's success is a `Bool` flag.
-/

/-- A conversational turn: the dict `{"role": ..., "content": ...}`. -/
structure Turn where
  role : String
  content : String
deriving DecidableEq, Repr

/-- The in-memory context store `user_context : Dict[int, deque]`:
`none` means the key is absent from the dict. -/
def Store : Type := Int → Option (List Turn)

/-- The fresh process state: an empty dict. -/
def emptyStore : Store := fun _ => none

/-- The deque capacity used by `ensure_context` (`deque(maxlen=24)`). -/
def CAPACITY : Nat := 24

/-- Python's `deque(maxlen=cap).append(t)`: append at the right; if the
length would exceed `cap`, oldest elements fall off the left. -/
def dequeAppend (cap : Nat) (h : List Turn) (t : Turn) : List Turn :=
  let h' := h ++ [t]
  if h'.length > cap then h'.drop (h'.length - cap) else h'

/-- `ensure_context(uid)`: if `uid not in user_context`, install an empty
deque; otherwise leave the dict unchanged. -/
def ensure_context (s : Store) (uid : Int) : Store :=
  fun u => if u = uid then some ((s uid).getD []) else s u

/-- The ordered sequence of turns currently held for `uid` (empty if the
user has never been seen); `list(user_context[uid])` where present. -/
def snapshot (s : Store) (uid : Int) : List Turn :=
  (s uid).getD []

/-- `push_user(uid, text)`: `ensure_context` then append a user turn.
The capacity is a parameter; the source fixes it to `CAPACITY = 24` at
deque creation. -/
def push_user (cap : Nat) (s : Store) (uid : Int) (text : String) : Store :=
  let s' := ensure_context s uid
  fun u => if u = uid then some (dequeAppend cap (snapshot s' uid) ⟨"user", text⟩) else s' u

/-- `push_assistant(uid, text)`: `ensure_context` then append an assistant
turn. -/
def push_assistant (cap : Nat) (s : Store) (uid : Int) (text : String) : Store :=
  let s' := ensure_context s uid
  fun u => if u = uid then some (dequeAppend cap (snapshot s' uid) ⟨"assistant", text⟩) else s' u

/-- One call against the context buffer, as named by the spec:
`recordUser`/`recordAssistant`/`ensure`. -/
inductive CtxOp where
  | recordUser (uid : Int) (text : String)
  | recordAssistant (uid : Int) (text : String)
  | ensure (uid : Int)
deriving DecidableEq, Repr

/-- The user identifier an operation targets. -/
def CtxOp.uid : CtxOp → Int
  | .recordUser u _ => u
  | .recordAssistant u _ => u
  | .ensure u => u

/-- Apply one buffer operation to the store. -/
def applyOp (cap : Nat) (s : Store) : CtxOp → Store
  | .recordUser u t => push_user cap s u t
  | .recordAssistant u t => push_assistant cap s u t
  | .ensure u => ensure_context s u

/-- Apply a sequence of buffer operations, oldest first. -/
def applyOps (cap : Nat) (s : Store) (ops : List CtxOp) : Store :=
  ops.foldl (applyOp cap) s

/-- Python's `str.lower()`, modelled for ASCII letters plus the uppercase
forms of the Vietnamese letters occurring in the report-trigger markers
(`Ạ` and `Á`); all other characters are left unchanged. -/
def pyLowerChar (c : Char) : Char :=
  if 'A' ≤ c ∧ c ≤ 'Z' then Char.ofNat (c.toNat + 32)
  else if c = 'Ạ' then 'ạ'
  else if c = 'Á' then 'á'
  else c

/-- Characterwise lowering of a string (Python `text.lower()`). -/
def pyLower (s : String) : String :=
  String.mk (s.data.map pyLowerChar)

/-- Python's substring test `pat in s`. -/
def containsStr (s pat : String) : Bool :=
  decide (pat.data <:+: s.data)

/-- Python's `str.endswith(suffix)`. -/
def pyEndsWith (s suffix : String) : Bool :=
  decide (suffix.data <:+ s.data)

/-- The whitespace characters stripped by Python's `str.strip()` (the ASCII
ones; stripping of rarer Unicode spaces is irrelevant to every claim). -/
def pyIsSpace (c : Char) : Bool :=
  c = ' ' || c = '\t' || c = '\n' || c = '\r' || c = '\x0b' || c = '\x0c'

/-- Python's `str.strip()`: drop leading and trailing whitespace. -/
def pyStrip (s : String) : String :=
  String.mk (((s.data.dropWhile pyIsSpace).reverse.dropWhile pyIsSpace).reverse)

/-- Python's `s[:n]`: the first `n` characters. -/
def pyTake (n : Nat) (s : String) : String :=
  String.mk (s.data.take n)

/-- Split a character list at each newline, keeping empty pieces. -/
def splitOnNl : List Char → List (List Char)
  | [] => [[]]
  | c :: rest =>
      let r := splitOnNl rest
      if c = '\n' then [] :: r
      else
        match r with
        | [] => [[c]]
        | p :: ps => (c :: p) :: ps

/-- Python's `str.splitlines()` (modelled for `\n` boundaries): split at
newlines, with a trailing newline producing no final empty piece and the
empty string producing no pieces. -/
def pySplitlines (s : String) : List String :=
  let ps := (splitOnNl s.data).map String.mk
  if ps.getLast? = some "" then ps.dropLast else ps

/-- The fixed system instruction `SYSTEM_PROMPT`. -/
def SYSTEM_PROMPT : String :=
  "Bạn là trợ lý chuyên gia giám định bảo hiểm xe cơ giới cho Mr.P. " ++
  "Trả lời ngắn gọn, chính xác, hướng nghiệp vụ. Khi cần báo cáo, tạo PDF tóm tắt."

/-- `MEDIA_DIR` with its default value (the env override is irrelevant to
every claim: paths matter only structurally). -/
def MEDIA_DIR : String := "/tmp/telegram_media"

/-- The fixed user-visible fallback reply on inference failure. -/
def FALLBACK_ERROR : String := "Lỗi khi kết nối OpenAI."

/-- Result of `generate_pdf_report`: the returned path, the content written
to the plain-text fallback file (when the renderer failed), and the list of
strings drawn into the PDF in draw order (when the renderer succeeded). -/
structure ReportResult where
  path : String
  writtenTxt : Option String
  pdfDrawn : Option (List String)
deriving DecidableEq, Repr

/-- The path `MEDIA_DIR/report_{uid}_{int(time.time())}.pdf`. -/
def reportPdfPath (uid : Int) (now : Nat) : String :=
  MEDIA_DIR ++ "/report_" ++ toString uid ++ "_" ++ toString now ++ ".pdf"

/-- The text the successful ReportLab branch draws, in `drawString` order:
title, user line, request heading, `query_text[:1000]`, analysis heading,
then each line of the assistant text truncated to 120 characters.
(Python `splitlines` is modelled as splitting on a newline character.) -/
def pdfDrawStrings (uid : Int) (query_text assistant_text : String) : List String :=
  ["Báo cáo giám định - GIC Assistant",
   "Người dùng: " ++ toString uid,
   "Nội dung yêu cầu:",
   pyTake 1000 query_text,
   "Phân tích:"] ++ (pySplitlines assistant_text).map (fun l => pyTake 120 l)

/-- The content the fallback branch writes to `pdf_path + ".txt"`. The
Python source uses the literals `"\\n"` (an escaped backslash followed by
`n`), so the file receives two-character `\n` sequences, not newlines; the
string below reproduces that exactly. -/
def txtFallbackContent (uid : Int) (query_text assistant_text : String) : String :=
  "Báo cáo giám định\\n\\n" ++
  "Người dùng: " ++ toString uid ++ "\\n\\n" ++
  "Yêu cầu:\\n" ++
  query_text ++ "\\n\\n" ++
  "Phân tích:\\n" ++
  assistant_text ++ "\\n"

/-- `generate_pdf_report(uid, query_text, assistant_text)`. The renderer's
success is the `renderOk` flag (the `try` body either completes or raises);
`now` stands for `int(time.time())`. -/
def generate_pdf_report (uid : Int) (query_text assistant_text : String)
    (renderOk : Bool) (now : Nat) : ReportResult :=
  let pdf_path := reportPdfPath uid now
  if renderOk then
    { path := pdf_path, writtenTxt := none,
      pdfDrawn := some (pdfDrawStrings uid query_text assistant_text) }
  else
    { path := pdf_path ++ ".txt",
      writtenTxt := some (txtFallbackContent uid query_text assistant_text),
      pdfDrawn := none }

/-- Observable outcome of `handle_text`: the new store, the replies sent
(in order), the payload dispatched to the inference service, and the report
path when the report branch ran. -/
structure TextOutcome where
  store : Store
  replies : List String
  payload : List Turn
  report : Option String

/-- `handle_text(m)`: strip the text, record the user turn, build
`[system] + list(user_context[uid])`, call the inference service; on error
reply with the fixed fallback and return; on success record the assistant
turn and either generate a report (when the lowered text contains a trigger
marker) or echo the assistant text. -/
def handle_text (infer : List Turn → Except Unit String) (renderOk : Bool)
    (now : Nat) (s : Store) (uid : Int) (rawText : String) : TextOutcome :=
  let text := pyStrip rawText
  let s1 := push_user CAPACITY s uid text
  let messages := Turn.mk "system" SYSTEM_PROMPT :: snapshot s1 uid
  match infer messages with
  | .error _ =>
      { store := s1, replies := [FALLBACK_ERROR], payload := messages, report := none }
  | .ok raw =>
      let assistant_text := pyStrip raw
      let s2 := push_assistant CAPACITY s1 uid assistant_text
      if containsStr (pyLower text) "tạo báo cáo" || containsStr (pyLower text) "báo cáo" then
        let r := generate_pdf_report uid text assistant_text renderOk now
        { store := s2, replies := ["Báo cáo đã tạo: " ++ r.path],
          payload := messages, report := some r.path }
      else
        { store := s2, replies := [assistant_text], payload := messages, report := none }

/-- Observable outcome of the media handlers: new store, replies sent, and
the local path the file was saved to. -/
structure MediaOutcome where
  store : Store
  replies : List String
  savedPath : String

/-- `handle_document(m)`: save the file, reply, and only when the filename
lowercases to one ending in ".pdf" reply again and record a `[pdf:...]`
placeholder user turn. -/
def handle_document (s : Store) (uid : Int) (fileId fname : String) : MediaOutcome :=
  let localPath := MEDIA_DIR ++ "/" ++ toString uid ++ "_" ++ fileId ++ "_" ++ fname
  if pyEndsWith (pyLower fname) ".pdf" then
    { store := push_user CAPACITY s uid ("[pdf:" ++ localPath ++ "]"),
      replies := ["Tài liệu " ++ fname ++ " đã lưu.",
                  "Bắt đầu trích xuất nội dung PDF (nếu cấu hình)."],
      savedPath := localPath }
  else
    { store := s,
      replies := ["Tài liệu " ++ fname ++ " đã lưu."],
      savedPath := localPath }

/-- `handle_photo(m)`: save the image, reply, and record an `[image:...]`
placeholder user turn. -/
def handle_photo (s : Store) (uid : Int) (fileId : String) : MediaOutcome :=
  let localPath := MEDIA_DIR ++ "/" ++ toString uid ++ "_" ++ fileId ++ ".jpg"
  { store := push_user CAPACITY s uid ("[image:" ++ localPath ++ "]"),
    replies := ["Ảnh đã lưu. Mô tả thêm hoàn cảnh để tôi phân tích."],
    savedPath := localPath }

/-- Python truthiness of `os.getenv(...)`: `None` (unset) and the empty
string are falsy. -/
def envTruthy : Option String → Bool
  | none => false
  | some t => !t.isEmpty

/-- The module-level credential check: raise `RuntimeError` when either
`TELEGRAM_BOT_TOKEN` or `OPENAI_API_KEY` is unset or empty. -/
def startupCheck (telegramToken openaiKey : Option String) : Except String Unit :=
  if !envTruthy telegramToken || !envTruthy openaiKey then
    Except.error "TELEGRAM_BOT_TOKEN and OPENAI_API_KEY must be set in env"
  else
    Except.ok ()

/-! ## Lemmas about the bounded deque -/

theorem dequeAppend_eq_drop (cap : Nat) (h : List Turn) (t : Turn) :
    dequeAppend cap h t = (h ++ [t]).drop (h.length + 1 - cap) := by
  simp only [dequeAppend, List.length_append, List.length_cons, List.length_nil, Nat.zero_add]
  split
  · rfl
  · next hle => rw [Nat.sub_eq_zero_of_le (by omega), List.drop_zero]

theorem dequeAppend_length_le (cap : Nat) (h : List Turn) (t : Turn) :
    (dequeAppend cap h t).length ≤ cap := by
  rw [dequeAppend_eq_drop, List.length_drop]
  simp only [List.length_append, List.length_cons, List.length_nil, Nat.zero_add]
  omega

theorem dequeAppend_getLast (cap : Nat) (hcap : 0 < cap) (h : List Turn) (t : Turn) :
    (dequeAppend cap h t).getLast? = some t := by
  rw [dequeAppend_eq_drop, List.getLast?_drop,
    if_neg (by simp only [List.length_append, List.length_cons, List.length_nil]; omega)]
  exact List.getLast?_concat h

theorem mem_dequeAppend_of_getLast (cap : Nat) (hcap : 2 ≤ cap) (h : List Turn)
    (x t : Turn) (hlast : h.getLast? = some x) : x ∈ dequeAppend cap h t := by
  have hne : h ≠ [] := by
    intro e; rw [e] at hlast; simp at hlast
  obtain ⟨q, rfl⟩ : ∃ q, h = q ++ [x] := by
    refine ⟨h.dropLast, ?_⟩
    rw [List.getLast?_eq_getLast h hne] at hlast
    have hx : h.getLast hne = x := Option.some.inj hlast
    rw [← hx]
    exact (List.dropLast_append_getLast hne).symm
  rw [dequeAppend_eq_drop, List.append_assoc, List.drop_append_eq_append_drop]
  apply List.mem_append_right
  rw [show ((q ++ [x]).length + 1 - cap) - q.length = 0 by
    simp only [List.length_append, List.length_cons, List.length_nil]; omega]
  simp

theorem foldl_dequeAppend (cap : Nat) (ts : List Turn) :
    ∀ h : List Turn, h.length ≤ cap →
      ts.foldl (dequeAppend cap) h = (h ++ ts).drop (h.length + ts.length - cap) := by
  induction ts with
  | nil =>
    intro h hle
    simp [Nat.sub_eq_zero_of_le hle]
  | cons t ts ih =>
    intro h hle
    rw [List.foldl_cons, ih _ (dequeAppend_length_le cap h t), dequeAppend_eq_drop]
    have hd : h.length + 1 - cap ≤ (h ++ [t]).length := by
      simp only [List.length_append, List.length_cons, List.length_nil]; omega
    have hsplit : ((h ++ [t]) ++ ts).drop (h.length + 1 - cap)
        = ((h ++ [t]).drop (h.length + 1 - cap)) ++ ts := by
      rw [List.drop_append_eq_append_drop, Nat.sub_eq_zero_of_le hd, List.drop_zero]
    simp only [List.length_drop, List.length_append, List.length_cons, List.length_nil,
      Nat.zero_add]
    rw [← hsplit, List.drop_drop, ← List.append_cons]
    congr 1
    omega

/-! ## Lemmas about the context store operations -/

theorem snapshot_emptyStore (uid : Int) : snapshot emptyStore uid = [] := rfl

theorem ensure_snapshot (s : Store) (uid : Int) :
    snapshot (ensure_context s uid) uid = snapshot s uid := by
  simp [snapshot, ensure_context]

theorem push_user_snapshot (cap : Nat) (s : Store) (uid : Int) (t : String) :
    snapshot (push_user cap s uid t) uid = dequeAppend cap (snapshot s uid) ⟨"user", t⟩ := by
  simp [snapshot, push_user, ensure_context]

theorem push_assistant_snapshot (cap : Nat) (s : Store) (uid : Int) (t : String) :
    snapshot (push_assistant cap s uid t) uid
      = dequeAppend cap (snapshot s uid) ⟨"assistant", t⟩ := by
  simp [snapshot, push_assistant, ensure_context]

theorem applyOp_snapshot_ne (cap : Nat) (s : Store) (op : CtxOp) (u : Int)
    (h : op.uid ≠ u) : snapshot (applyOp cap s op) u = snapshot s u := by
  have h' : u ≠ op.uid := Ne.symm h
  cases op with
  | recordUser v t =>
    simp only [CtxOp.uid] at h'
    simp [applyOp, snapshot, push_user, ensure_context, h']
  | recordAssistant v t =>
    simp only [CtxOp.uid] at h'
    simp [applyOp, snapshot, push_assistant, ensure_context, h']
  | ensure v =>
    simp only [CtxOp.uid] at h'
    simp [applyOp, snapshot, ensure_context, h']

theorem applyOps_snapshot_ne (cap : Nat) (ops : List CtxOp) :
    ∀ (s : Store) (u : Int), (∀ op ∈ ops, op.uid ≠ u) →
      snapshot (applyOps cap s ops) u = snapshot s u := by
  induction ops with
  | nil => intro s u _; rfl
  | cons op ops ih =>
    intro s u hall
    calc snapshot (applyOps cap (applyOp cap s op) ops) u
        = snapshot (applyOp cap s op) u :=
          ih _ u (fun o ho => hall o (List.mem_cons_of_mem op ho))
      _ = snapshot s u := applyOp_snapshot_ne cap s op u (hall op (List.mem_cons_self op ops))

/-- All histories in the store are within capacity. -/
def StoreBounded (cap : Nat) (s : Store) : Prop :=
  ∀ u l, s u = some l → l.length ≤ cap

theorem emptyStore_bounded (cap : Nat) : StoreBounded cap emptyStore := by
  intro u l h
  simp [emptyStore] at h

theorem applyOp_bounded (cap : Nat) (s : Store) (op : CtxOp)
    (hs : StoreBounded cap s) : StoreBounded cap (applyOp cap s op) := by
  cases op with
  | recordUser v t =>
    intro u l hl
    by_cases hu : u = v
    · subst hu
      simp only [applyOp, push_user, if_pos rfl] at hl
      have := Option.some.inj hl
      rw [← this]
      exact dequeAppend_length_le _ _ _
    · simp only [applyOp, push_user, ensure_context, if_neg hu] at hl
      exact hs u l hl
  | recordAssistant v t =>
    intro u l hl
    by_cases hu : u = v
    · subst hu
      simp only [applyOp, push_assistant, if_pos rfl] at hl
      have := Option.some.inj hl
      rw [← this]
      exact dequeAppend_length_le _ _ _
    · simp only [applyOp, push_assistant, ensure_context, if_neg hu] at hl
      exact hs u l hl
  | ensure v =>
    intro u l hl
    by_cases hu : u = v
    · subst hu
      simp only [applyOp, ensure_context, if_pos rfl] at hl
      have := Option.some.inj hl
      rw [← this]
      cases hsv : s u with
      | none => simp [hsv]
      | some l' => simpa [hsv] using hs u l' hsv
    · simp only [applyOp, ensure_context, if_neg hu] at hl
      exact hs u l hl

theorem applyOps_bounded (cap : Nat) (ops : List CtxOp) :
    ∀ s : Store, StoreBounded cap s → StoreBounded cap (applyOps cap s ops) := by
  induction ops with
  | nil => intro s hs; exact hs
  | cons op ops ih => intro s hs; exact ih _ (applyOp_bounded cap s op hs)

theorem snapshot_length_le_of_bounded (cap : Nat) (s : Store) (uid : Int)
    (hs : StoreBounded cap s) : (snapshot s uid).length ≤ cap := by
  unfold snapshot
  cases hsv : s uid with
  | none => simp
  | some l => simpa [hsv] using hs uid l hsv

/-- The buffer calls a sequence of turns induces for one user:
`recordUser` for user-role turns, `recordAssistant` otherwise. -/
def opsFor (uid : Int) (ts : List Turn) : List CtxOp :=
  ts.map (fun t => if t.role = "user" then CtxOp.recordUser uid t.content
                   else CtxOp.recordAssistant uid t.content)

theorem applyOps_opsFor (cap : Nat) (uid : Int) (ts : List Turn) :
    ∀ s : Store, (∀ t ∈ ts, t.role = "user" ∨ t.role = "assistant") →
      snapshot (applyOps cap s (opsFor uid ts)) uid
        = ts.foldl (dequeAppend cap) (snapshot s uid) := by
  induction ts with
  | nil => intro s _; rfl
  | cons t ts ih =>
    intro s hroles
    have hrest : ∀ x ∈ ts, x.role = "user" ∨ x.role = "assistant" :=
      fun x hx => hroles x (List.mem_cons_of_mem t hx)
    rcases hroles t (List.mem_cons_self t ts) with hu | ha
    · have hops : opsFor uid (t :: ts) = CtxOp.recordUser uid t.content :: opsFor uid ts := by
        simp [opsFor, hu]
      have ht : Turn.mk "user" t.content = t := by
        obtain ⟨r, c⟩ := t
        simp only [Turn.mk.injEq, and_true]
        exact hu.symm
      have step : applyOps cap s (opsFor uid (t :: ts))
          = applyOps cap (push_user cap s uid t.content) (opsFor uid ts) := by
        rw [hops]; rfl
      rw [step, ih _ hrest, push_user_snapshot, List.foldl_cons, ht]
    · have hops : opsFor uid (t :: ts) = CtxOp.recordAssistant uid t.content :: opsFor uid ts := by
        simp [opsFor, ha]
      have ht : Turn.mk "assistant" t.content = t := by
        obtain ⟨r, c⟩ := t
        simp only [Turn.mk.injEq, and_true]
        exact ha.symm
      have step : applyOps cap s (opsFor uid (t :: ts))
          = applyOps cap (push_assistant cap s uid t.content) (opsFor uid ts) := by
        rw [hops]; rfl
      rw [step, ih _ hrest, push_assistant_snapshot, List.foldl_cons, ht]

/-! ## Characterizations of `handle_text` -/

theorem handle_text_error (infer : List Turn → Except Unit String) (renderOk : Bool)
    (now : Nat) (s : Store) (uid : Int) (rawText : String)
    (hfail : infer (Turn.mk "system" SYSTEM_PROMPT ::
        snapshot (push_user CAPACITY s uid (pyStrip rawText)) uid) = Except.error ()) :
    handle_text infer renderOk now s uid rawText =
      { store := push_user CAPACITY s uid (pyStrip rawText),
        replies := [FALLBACK_ERROR],
        payload := Turn.mk "system" SYSTEM_PROMPT ::
          snapshot (push_user CAPACITY s uid (pyStrip rawText)) uid,
        report := none } := by
  simp only [handle_text]
  rw [hfail]

theorem handle_text_ok_report (infer : List Turn → Except Unit String) (renderOk : Bool)
    (now : Nat) (s : Store) (uid : Int) (rawText reply : String)
    (hok : infer (Turn.mk "system" SYSTEM_PROMPT ::
        snapshot (push_user CAPACITY s uid (pyStrip rawText)) uid) = Except.ok reply)
    (hmark : containsStr (pyLower (pyStrip rawText)) "báo cáo" = true) :
    handle_text infer renderOk now s uid rawText =
      { store := push_assistant CAPACITY (push_user CAPACITY s uid (pyStrip rawText)) uid
          (pyStrip reply),
        replies := ["Báo cáo đã tạo: " ++
          (generate_pdf_report uid (pyStrip rawText) (pyStrip reply) renderOk now).path],
        payload := Turn.mk "system" SYSTEM_PROMPT ::
          snapshot (push_user CAPACITY s uid (pyStrip rawText)) uid,
        report := some (generate_pdf_report uid (pyStrip rawText) (pyStrip reply) renderOk now).path } := by
  simp only [handle_text]
  rw [hok]
  simp only [hmark, Bool.or_true, if_true]

theorem handle_text_payload (infer : List Turn → Except Unit String) (renderOk : Bool)
    (now : Nat) (s : Store) (uid : Int) (rawText : String) :
    (handle_text infer renderOk now s uid rawText).payload
      = Turn.mk "system" SYSTEM_PROMPT ::
          snapshot (push_user CAPACITY s uid (pyStrip rawText)) uid := by
  simp only [handle_text]
  rcases infer (Turn.mk "system" SYSTEM_PROMPT ::
      snapshot (push_user CAPACITY s uid (pyStrip rawText)) uid) with e | r
  · rfl
  · dsimp only
    split <;> rfl

/-! ## Claims -/

/-- C1: the per-user conversation history is a bounded FIFO of capacity
N = 24. Over every sequence of buffer operations from the fresh store, no
user's history ever exceeds 24 turns; after any 25 `recordUser` /
`recordAssistant` calls for one user from the fresh store, the snapshot is
exactly the most recent 24 turns in their original relative order (the
oldest evicted first); and with capacity 2, `recordUser(1,"a")`,
`recordAssistant(1,"b")`, `recordUser(1,"c")` yields
`snapshot(1) = [{assistant,"b"},{user,"c"}]`. -/
theorem C1_bounded_fifo :
    (∀ (ops : List CtxOp) (uid : Int),
        (snapshot (applyOps CAPACITY emptyStore ops) uid).length ≤ 24) ∧
    (∀ (uid : Int) (ts : List Turn), ts.length = 25 →
        (∀ t ∈ ts, t.role = "user" ∨ t.role = "assistant") →
        snapshot (applyOps CAPACITY emptyStore (opsFor uid ts)) uid = ts.drop 1 ∧
        (snapshot (applyOps CAPACITY emptyStore (opsFor uid ts)) uid).length = 24) ∧
    (snapshot (applyOps 2 emptyStore
        [CtxOp.recordUser 1 "a", CtxOp.recordAssistant 1 "b", CtxOp.recordUser 1 "c"]) 1
      = [Turn.mk "assistant" "b", Turn.mk "user" "c"]) := by
  refine ⟨?_, ?_, ?_⟩
  · intro ops uid
    exact snapshot_length_le_of_bounded CAPACITY _ uid
      (applyOps_bounded CAPACITY ops emptyStore (emptyStore_bounded CAPACITY))
  · intro uid ts hlen hroles
    have h1 : snapshot (applyOps CAPACITY emptyStore (opsFor uid ts)) uid = ts.drop 1 := by
      rw [applyOps_opsFor CAPACITY uid ts emptyStore hroles, snapshot_emptyStore,
        foldl_dequeAppend CAPACITY ts [] (by simp)]
      simp [hlen, CAPACITY]
    refine ⟨h1, ?_⟩
    rw [h1, List.length_drop, hlen]
  · decide

/-- Witness for C1: a concrete sequence of 25 record calls for user 1. -/
theorem C1_bounded_fifo_witness :
    snapshot (applyOps CAPACITY emptyStore
        (opsFor 1 (List.replicate 25 (Turn.mk "user" "x")))) 1
      = (List.replicate 25 (Turn.mk "user" "x")).drop 1 :=
  (C1_bounded_fifo.2.1 1 (List.replicate 25 (Turn.mk "user" "x"))
    (by decide) (by decide)).1

/-- C2: if the inference call fails, `handle_text` leaves the store exactly
as it was immediately before the call (after the user turn was recorded),
sends the single fixed fallback reply, and generates no report. -/
theorem C2_inference_failure (infer : List Turn → Except Unit String) (renderOk : Bool)
    (now : Nat) (s : Store) (uid : Int) (rawText : String)
    (hfail : infer (Turn.mk "system" SYSTEM_PROMPT ::
        snapshot (push_user CAPACITY s uid (pyStrip rawText)) uid) = Except.error ()) :
    (handle_text infer renderOk now s uid rawText).store
        = push_user CAPACITY s uid (pyStrip rawText) ∧
    snapshot (handle_text infer renderOk now s uid rawText).store uid
        = snapshot (push_user CAPACITY s uid (pyStrip rawText)) uid ∧
    (handle_text infer renderOk now s uid rawText).replies = [FALLBACK_ERROR] ∧
    (handle_text infer renderOk now s uid rawText).report = none := by
  rw [handle_text_error infer renderOk now s uid rawText hfail]
  exact ⟨rfl, rfl, rfl, rfl⟩

/-- Witness for C2: a failing inference call on a concrete message. -/
theorem C2_inference_failure_witness :
    (handle_text (fun _ => Except.error ()) true 0 emptyStore 1 "hello").store
        = push_user CAPACITY emptyStore 1 (pyStrip "hello") ∧
    (handle_text (fun _ => Except.error ()) true 0 emptyStore 1 "hello").replies
        = [FALLBACK_ERROR] :=
  ⟨(C2_inference_failure (fun _ => Except.error ()) true 0 emptyStore 1 "hello" rfl).1,
   (C2_inference_failure (fun _ => Except.error ()) true 0 emptyStore 1 "hello" rfl).2.2.1⟩

/-- C3: the outbound inference payload is the fixed system turn prepended
to the user's snapshot at dispatch time: one more entry than the history,
first entry role `system`, remaining entries the buffered turns in order,
ending with the just-recorded user turn. -/
theorem C3_payload_shape (infer : List Turn → Except Unit String) (renderOk : Bool)
    (now : Nat) (s : Store) (uid : Int) (rawText : String) :
    (handle_text infer renderOk now s uid rawText).payload
        = Turn.mk "system" SYSTEM_PROMPT ::
            snapshot (push_user CAPACITY s uid (pyStrip rawText)) uid ∧
    (handle_text infer renderOk now s uid rawText).payload.length
        = (snapshot (push_user CAPACITY s uid (pyStrip rawText)) uid).length + 1 ∧
    (handle_text infer renderOk now s uid rawText).payload.head?
        = some (Turn.mk "system" SYSTEM_PROMPT) ∧
    (handle_text infer renderOk now s uid rawText).payload.getLast?
        = some (Turn.mk "user" (pyStrip rawText)) := by
  have hp := handle_text_payload infer renderOk now s uid rawText
  have hlast : (snapshot (push_user CAPACITY s uid (pyStrip rawText)) uid).getLast?
      = some (Turn.mk "user" (pyStrip rawText)) := by
    rw [push_user_snapshot]
    exact dequeAppend_getLast CAPACITY (by decide) _ _
  refine ⟨hp, by rw [hp]; rfl, by rw [hp]; rfl, ?_⟩
  rw [hp, ← List.singleton_append, List.getLast?_append, hlast]
  rfl

/-- C5: per-user isolation: operations targeting one user leave every other
user's snapshot unchanged. -/
theorem C5_user_isolation (cap : Nat) (ops : List CtxOp) (u1 u2 : Int) (s : Store)
    (hne : u1 ≠ u2) (hops : ∀ op ∈ ops, op.uid = u1) :
    snapshot (applyOps cap s ops) u2 = snapshot s u2 :=
  applyOps_snapshot_ne cap ops s u2 (fun op ho => by rw [hops op ho]; exact hne)

/-- Witness for C5: user 1's operations do not change user 2's snapshot. -/
theorem C5_user_isolation_witness :
    snapshot (applyOps CAPACITY emptyStore
      [CtxOp.recordUser 1 "a", CtxOp.ensure 1, CtxOp.recordAssistant 1 "b"]) 2
      = snapshot emptyStore 2 :=
  C5_user_isolation CAPACITY
    [CtxOp.recordUser 1 "a", CtxOp.ensure 1, CtxOp.recordAssistant 1 "b"]
    1 2 emptyStore (by decide) (by decide)

/-- C7: `ensure` is idempotent, a no-op on an already-present user (and, as
a total function, never fails), and the snapshot of a user no operation
ever targeted is the empty sequence. -/
theorem C7_ensure_idempotent :
    (∀ (s : Store) (uid : Int),
        ensure_context (ensure_context s uid) uid = ensure_context s uid) ∧
    (∀ (s : Store) (uid : Int) (l : List Turn), s uid = some l →
        ensure_context s uid = s) ∧
    (∀ (cap : Nat) (ops : List CtxOp) (uid : Int), (∀ op ∈ ops, op.uid ≠ uid) →
        snapshot (applyOps cap emptyStore ops) uid = []) := by
  refine ⟨?_, ?_, ?_⟩
  · intro s uid
    funext u
    by_cases hu : u = uid
    · subst hu; simp [ensure_context]
    · simp [ensure_context, hu]
  · intro s uid l hl
    funext u
    by_cases hu : u = uid
    · subst hu; simp [ensure_context, hl]
    · simp [ensure_context, hu]
  · intro cap ops uid hops
    rw [applyOps_snapshot_ne cap ops emptyStore uid hops]
    rfl

/-- Witness for C7: re-ensuring an existing user is a no-op, and a user
never targeted has an empty snapshot. -/
theorem C7_ensure_idempotent_witness :
    ensure_context (fun u => if u = (1 : Int) then some [Turn.mk "user" "a"] else none) 1
      = (fun u => if u = (1 : Int) then some [Turn.mk "user" "a"] else none) ∧
    snapshot (applyOps CAPACITY emptyStore [CtxOp.recordUser 1 "a"]) 2 = [] :=
  ⟨C7_ensure_idempotent.2.1 _ 1 [Turn.mk "user" "a"] rfl,
   C7_ensure_idempotent.2.2 CAPACITY [CtxOp.recordUser 1 "a"] 2 (by decide)⟩

/-- C8: startup raises exactly when a mandatory credential (the Telegram
token or the OpenAI key) is unset or empty; every handler in the embedding
is a total function, so no other modelled error aborts the process. -/
theorem C8_startup_credentials (telegramToken openaiKey : Option String) :
    (∃ e, startupCheck telegramToken openaiKey = Except.error e) ↔
      (envTruthy telegramToken = false ∨ envTruthy openaiKey = false) := by
  unfold startupCheck
  by_cases h1 : envTruthy telegramToken <;> by_cases h2 : envTruthy openaiKey <;>
    simp [h1, h2]

/-- C4: when the lowered inbound text contains the marker "báo cáo" (which
both trigger phrases of the source reduce to, "tạo báo cáo" containing
"báo cáo") and inference succeeds, the reply is the report message for the
generated artifact path rather than an echo of the assistant text, and the
text was still recorded as a user turn before dispatch (it is the last
entry of the dispatched payload). -/
theorem C4_report_routing (infer : List Turn → Except Unit String) (renderOk : Bool)
    (now : Nat) (s : Store) (uid : Int) (rawText reply : String)
    (hok : infer (Turn.mk "system" SYSTEM_PROMPT ::
        snapshot (push_user CAPACITY s uid (pyStrip rawText)) uid) = Except.ok reply)
    (hmark : containsStr (pyLower (pyStrip rawText)) "báo cáo" = true) :
    (handle_text infer renderOk now s uid rawText).report
        = some (generate_pdf_report uid (pyStrip rawText) (pyStrip reply) renderOk now).path ∧
    (handle_text infer renderOk now s uid rawText).replies
        = ["Báo cáo đã tạo: " ++
            (generate_pdf_report uid (pyStrip rawText) (pyStrip reply) renderOk now).path] ∧
    (handle_text infer renderOk now s uid rawText).payload.getLast?
        = some (Turn.mk "user" (pyStrip rawText)) := by
  rw [handle_text_ok_report infer renderOk now s uid rawText reply hok hmark]
  have hlast : (snapshot (push_user CAPACITY s uid (pyStrip rawText)) uid).getLast?
      = some (Turn.mk "user" (pyStrip rawText)) := by
    rw [push_user_snapshot]
    exact dequeAppend_getLast CAPACITY (by decide) _ _
  refine ⟨rfl, rfl, ?_⟩
  show (Turn.mk "system" SYSTEM_PROMPT ::
      snapshot (push_user CAPACITY s uid (pyStrip rawText)) uid).getLast? = _
  rw [← List.singleton_append, List.getLast?_append, hlast]
  rfl

/-- Witness for C4: the concrete inbound text "tạo báo cáo xe" takes the
report path. -/
theorem C4_report_routing_witness :
    (handle_text (fun _ => Except.ok "done") true 5 emptyStore 1 "tạo báo cáo xe").report
      = some (generate_pdf_report 1 (pyStrip "tạo báo cáo xe") (pyStrip "done") true 5).path :=
  (C4_report_routing (fun _ => Except.ok "done") true 5 emptyStore 1 "tạo báo cáo xe" "done"
    rfl (by decide)).1

set_option maxRecDepth 4000 in
/-- C6 counterexample: the plain-text fallback does not write "the same
textual content that would have appeared in the rendered document". At
uid 0, query "q", assistant "a": the heading "Nội dung yêu cầu:" is drawn
in the document but occurs nowhere in the fallback file content, and the
file content differs from the document's drawn strings joined by
newlines. -/
theorem C6_counterexample :
    (generate_pdf_report 0 "q" "a" false 0).writtenTxt
        = some (txtFallbackContent 0 "q" "a") ∧
    "Nội dung yêu cầu:" ∈ pdfDrawStrings 0 "q" "a" ∧
    ¬ ("Nội dung yêu cầu:".data <:+: (txtFallbackContent 0 "q" "a").data) ∧
    txtFallbackContent 0 "q" "a"
        ≠ String.join (List.intersperse "\n" (pdfDrawStrings 0 "q" "a")) := by
  refine ⟨rfl, by decide, by decide, by decide⟩

/-- C6 amended: when the renderer fails, `generate_pdf_report` returns the
document path with ".txt" appended (a distinct plain-text extension) and
writes a plain-text report carrying the same inputs the rendered document
would have drawn — the user id line, the full query text and the full
assistant text — with no error escaping (the function totally returns the
fallback path). -/
theorem C6_text_fallback (uid : Int) (q a : String) (now : Nat) :
    (generate_pdf_report uid q a false now).path = reportPdfPath uid now ++ ".txt" ∧
    pyEndsWith (generate_pdf_report uid q a false now).path ".txt" = true ∧
    (generate_pdf_report uid q a false now).writtenTxt = some (txtFallbackContent uid q a) ∧
    q.data <:+: (txtFallbackContent uid q a).data ∧
    a.data <:+: (txtFallbackContent uid q a).data ∧
    ("Người dùng: " ++ toString uid).data <:+: (txtFallbackContent uid q a).data := by
  refine ⟨rfl, ?_, rfl, ?_, ?_, ?_⟩
  · apply decide_eq_true
    show String.data ".txt" <:+ _
    rw [show (generate_pdf_report uid q a false now).path
        = reportPdfPath uid now ++ ".txt" from rfl, String.data_append]
    exact List.suffix_append _ _
  · refine ⟨("Báo cáo giám định\\n\\n" ++ "Người dùng: " ++ toString uid ++ "\\n\\n"
        ++ "Yêu cầu:\\n").data, ("\\n\\n" ++ "Phân tích:\\n" ++ a ++ "\\n").data, ?_⟩
    simp [txtFallbackContent, String.data_append, List.append_assoc]
  · refine ⟨("Báo cáo giám định\\n\\n" ++ "Người dùng: " ++ toString uid ++ "\\n\\n"
        ++ "Yêu cầu:\\n" ++ q ++ "\\n\\n" ++ "Phân tích:\\n").data, ("\\n" : String).data, ?_⟩
    simp [txtFallbackContent, String.data_append, List.append_assoc]
  · refine ⟨("Báo cáo giám định\\n\\n" : String).data, ("\\n\\n" ++ "Yêu cầu:\\n" ++ q
        ++ "\\n\\n" ++ "Phân tích:\\n" ++ a ++ "\\n").data, ?_⟩
    simp [txtFallbackContent, String.data_append, List.append_assoc]

/-- C9: a document whose lowered filename does not end in ".pdf" is saved
and acknowledged but leaves every user's history untouched; a ".pdf"
document records the "[pdf:<path>]" placeholder user turn, and a photo
records the "[image:<path>]" placeholder user turn. -/
theorem C9_media_placeholders (s : Store) (uid : Int) (fileId fname : String) :
    (pyEndsWith (pyLower fname) ".pdf" = false →
      (handle_document s uid fileId fname).store = s ∧
      (handle_document s uid fileId fname).replies = ["Tài liệu " ++ fname ++ " đã lưu."]) ∧
    (pyEndsWith (pyLower fname) ".pdf" = true →
      (handle_document s uid fileId fname).store
        = push_user CAPACITY s uid
            ("[pdf:" ++ (MEDIA_DIR ++ "/" ++ toString uid ++ "_" ++ fileId ++ "_" ++ fname)
              ++ "]") ∧
      (handle_document s uid fileId fname).replies
        = ["Tài liệu " ++ fname ++ " đã lưu.",
           "Bắt đầu trích xuất nội dung PDF (nếu cấu hình)."]) ∧
    ((handle_photo s uid fileId).store
        = push_user CAPACITY s uid
            ("[image:" ++ (MEDIA_DIR ++ "/" ++ toString uid ++ "_" ++ fileId ++ ".jpg")
              ++ "]")) := by
  refine ⟨?_, ?_, rfl⟩
  · intro hno
    simp [handle_document, hno]
  · intro hyes
    simp [handle_document, hyes]

/-- Witness for C9: a ".docx" upload leaves the store untouched; a ".PDF"
upload records the placeholder turn. -/
theorem C9_media_placeholders_witness :
    (handle_document emptyStore 1 "f1" "scan.docx").store = emptyStore ∧
    (handle_document emptyStore 1 "f2" "Scan.PDF").store
      = push_user CAPACITY emptyStore 1
          ("[pdf:" ++ (MEDIA_DIR ++ "/" ++ toString (1 : Int) ++ "_" ++ "f2" ++ "_"
            ++ "Scan.PDF") ++ "]") :=
  ⟨((C9_media_placeholders emptyStore 1 "f1" "scan.docx").1 (by decide)).1,
   ((C9_media_placeholders emptyStore 1 "f2" "Scan.PDF").2.1 (by decide)).1⟩

/-- C10: the inbound-text protocol is not atomic on inference failure: the
user turn recorded before the call is retained when the call fails, the
history then ends with that turn, and it is contained in the payload of the
next `handle_text` dispatch for the same user. -/
theorem C10_nonatomic_failure (infer infer2 : List Turn → Except Unit String)
    (renderOk renderOk2 : Bool) (now now2 : Nat) (s : Store) (uid : Int)
    (rawText rawText2 : String)
    (hfail : infer (Turn.mk "system" SYSTEM_PROMPT ::
        snapshot (push_user CAPACITY s uid (pyStrip rawText)) uid) = Except.error ()) :
    (handle_text infer renderOk now s uid rawText).store
        = push_user CAPACITY s uid (pyStrip rawText) ∧
    (snapshot (handle_text infer renderOk now s uid rawText).store uid).getLast?
        = some (Turn.mk "user" (pyStrip rawText)) ∧
    Turn.mk "user" (pyStrip rawText) ∈
      (handle_text infer2 renderOk2 now2
        (handle_text infer renderOk now s uid rawText).store uid rawText2).payload := by
  rw [handle_text_error infer renderOk now s uid rawText hfail]
  have hlast : (snapshot (push_user CAPACITY s uid (pyStrip rawText)) uid).getLast?
      = some (Turn.mk "user" (pyStrip rawText)) := by
    rw [push_user_snapshot]
    exact dequeAppend_getLast CAPACITY (by decide) _ _
  refine ⟨rfl, hlast, ?_⟩
  rw [handle_text_payload]
  apply List.mem_cons_of_mem
  rw [push_user_snapshot]
  exact mem_dequeAppend_of_getLast CAPACITY (by decide) _ _ _ hlast

/-- Witness for C10: after a failed call on "hi", the recorded user turn
appears in the payload of the next dispatch. -/
theorem C10_nonatomic_failure_witness :
    Turn.mk "user" (pyStrip "hi") ∈
      (handle_text (fun _ => Except.ok "ok") true 1
        (handle_text (fun _ => Except.error ()) true 0 emptyStore 1 "hi").store
        1 "next").payload :=
  (C10_nonatomic_failure (fun _ => Except.error ()) (fun _ => Except.ok "ok")
    true true 0 1 emptyStore 1 "hi" "next" rfl).2.2
